import Mathlib

/-!
Verification of the quiz-administration web application in `main.py`
(Aptuquest-2025).  The file shallowly embeds the application's data model
(the `Participant` row, the in-code question bank), its helper predicates
(`is_authenticated`, `is_admin`, the auth/admin decorators) and the request
handlers the specification's claims are about (the profile form POST, the
quiz GET/POST, the admin approve/reject endpoints, and the correctness flag
of the emailed report), and proves the claimed properties about them.

Randomness (`random.sample`, `random.shuffle`) is modelled by passing the
drawn positions in explicitly: a sample is the list of elements at a list of
pairwise-distinct in-range positions, a shuffle is indexing by a permutation
of the index range.  Python dicts that the handlers build are modelled as
insertion-ordered association lists; a `KeyError` is modelled by `Option`.
-/

namespace AptuQuest

/-- A quiz question as the in-code bank of the `quiz` handler stores it:
the dict keys `id`, `question`, `options`, `answer`, together with the
`category` key the generation loop adds (absent in the bank, hence default
empty) and the `multiple` flag read via `q.get("multiple")` (never set in
the bank, hence default `false`). -/
structure Question where
  id : Nat
  question : String
  options : List String
  answer : String
  category : String := ""
  multiple : Bool := false
deriving DecidableEq

/-- The `"Math"` list of `questions_by_category` in the `quiz` handler. -/
def mathQuestions : List Question := [
  { id := 1,
    question := "A bag contains 5 red, 3 green, and 2 blue marbles. If two marbles are drawn without replacement, what is the probability that both are green?",
    options := ["1/15", "3/10", "1/5", "1/3"], answer := "1/15" },
  { id := 2, question := "A train 120 meters long passes a pole in 6 seconds. What is its speed in km/hr?",
    options := ["60", "72", "80", "90"], answer := "72" },
  { id := 3,
    question := "The average of five consecutive even numbers is 32. What is the smallest number?",
    options := ["24", "28", "30", "32"], answer := "28" },
  { id := 4,
    question := "If 12 workers can complete a work in 18 days, in how many days will 9 workers finish it?",
    options := ["20", "22", "24", "27"], answer := "24" },
  { id := 5,
    question := "A sum of ₹12,000 amounts to ₹15,840 in 3 years at simple interest. What is the rate of interest per annum?",
    options := ["8%", "9%", "10%", "12%"], answer := "12%" },
  { id := 6,
    question := "A train 180 m long passes a pole in 10 seconds. How long will it take to pass a platform 420 m long?",
    options := ["25 s", "30 s", "33.33 s", "40 s"], answer := "33.33 s" },
  { id := 7, question := "If x² - 5x + 6 = 0 and y² - 7y + 10 = 0, find the maximum value of x + y.",
    options := ["6", "7", "8", "9"], answer := "8" },
  { id := 8,
    question := "A merchant mixes two varieties of rice priced at ₹40/kg and ₹70/kg to make 60 kg of mixture costing ₹55/kg. How many kg of the first variety did he mix?",
    options := ["20", "25", "30", "35"], answer := "30" },
  { id := 9,
    question := "If an arithmetic progression has first term 5 and common difference 3, find the sum of first 20 terms.",
    options := ["670", "820", "860", "900"], answer := "670" },
  { id := 10,
    question := "Two numbers are in ratio 2:3 and are in harmonic progression. Their arithmetic mean is 30. Find the numbers.",
    options := ["20, 40", "18, 42", "24, 36", "15, 45"], answer := "24, 36" }]

/-- The `"Reasoning"` list of `questions_by_category` in the `quiz` handler. -/
def reasoningQuestions : List Question := [
  { id := 11, question := "If A is the father of B, but B is not the son of A, who is B to A?",
    options := ["Daughter", "Wife", "Sister", "Mother"], answer := "Daughter" },
  { id := 12, question := "Complete the series: 2, 6, 12, 20, 30, ?", options := ["40", "42", "50", "56"],
    answer := "42" },
  { id := 13, question := "If ‘RAIN’ is coded as ‘QZHM’, what is the code for ‘CLOUD’?",
    options := ["BKNTC", "DKNTC", "BKMTD", "BJNTC"], answer := "BKNTC" },
  { id := 14, question := "Find the odd one out: Circle, Triangle, Rectangle, Cube",
    options := ["Circle", "Triangle", "Rectangle", "Cube"], answer := "Cube" },
  { id := 15, question := "A clock shows 3:15. What is the angle between the hour and the minute hands?",
    options := ["0°", "7.5°", "30°", "37.5°"], answer := "37.5°" },
  { id := 16,
    question := "In a row of 7 people A B C D E F G facing north, C is between A and D. E is to the immediate right of C. Who is in the middle?",
    options := ["C", "D", "E", "F"], answer := "C" },
  { id := 17, question := "Find the next number: 3, 7, 15, 31, ?", options := ["47", "63", "57", "49"],
    answer := "63" },
  { id := 18, question := "A code language: 'ALPHA' = 'ZOKSZ'. What is 'BETA' coded as?",
    options := ["YVUZ", "YVUZ", "YVUZ", "YVUZ"], answer := "YVUZ" },
  { id := 19,
    question := "Three boxes: GG, SS, GS. You pick a box and draw one gold coin. What is the probability that the box is GG?",
    options := ["1/2", "2/3", "1/3", "3/4"], answer := "2/3" },
  { id := 20, question := "In a 5x5 magic square with numbers 1–25, what is the magic constant?",
    options := ["65", "75", "55", "85"], answer := "65" }]

/-- The `"Verbal"` list of `questions_by_category` in the `quiz` handler. -/
def verbalQuestions : List Question := [
  { id := 21, question := "Choose the synonym of 'Adversity'.",
    options := ["Difficulty", "Prosperity", "Advantage", "Happiness"], answer := "Difficulty" },
  { id := 22, question := "Choose the antonym of 'Transparent'.",
    options := ["Clear", "Opaque", "Visible", "Glassy"], answer := "Opaque" },
  { id := 23, question := "Fill in the blank: The teacher insisted ____ complete honesty.",
    options := ["on", "in", "for", "about"], answer := "on" },
  { id := 24, question := "Choose the correct spelling.",
    options := ["Recieve", "Receive", "Receeve", "Recievee"], answer := "Receive" },
  { id := 25, question := "Identify the correctly punctuated sentence.",
    options := ["“Where are you going” asked the teacher.", "“Where are you going?” asked the teacher.",
                "“Where are you going?” Asked the teacher.", "“Where are you going”? asked the teacher."],
    answer := "“Where are you going?” asked the teacher." },
  { id := 26, question := "Choose the sentence with correct parallel structure.",
    options := ["She likes hiking, to swim, and biking.", "She likes hiking, swimming, and biking.",
                "She likes hiking, swim, and to bike.", "She likes to hike, swimming, and to bike."],
    answer := "She likes hiking, swimming, and biking." },
  { id := 27, question := "Identify the antonym for 'obsequious'.",
    options := ["servile", "independent", "fawning", "subservient"], answer := "independent" },
  { id := 28, question := "Complete the analogy: Function : Input :: Algorithm : ?",
    options := ["Output", "Procedure", "Steps", "Complexity"], answer := "Steps" },
  { id := 29, question := "Paraphrase: The committee deferred the decision until further notice.",
    options := ["The decision was accelerated.", "The decision was postponed.",
                "The decision was canceled.", "The decision was revised."],
    answer := "The decision was postponed." },
  { id := 30, question := "Find the odd one out: benevolent, malevolent, virulent, resilient.",
    options := ["benevolent", "malevolent", "virulent", "resilient"], answer := "resilient" }]

/-- All questions of the bank, in the dict's insertion order. -/
def allBankQuestions : List Question :=
  mathQuestions ++ reasoningQuestions ++ verbalQuestions

/-! ## Randomness model -/

/-- Model of Python `random.sample(xs, k)`: the elements of `xs` at a list of
sampling positions, in the order the positions were drawn.  A faithful draw
supplies pairwise-distinct in-range positions of the right count
(`ValidSample`). -/
def randomSample (xs : List Question) (pos : List Nat) : List Question :=
  pos.filterMap (fun i => xs.get? i)

/-- Model of Python `random.shuffle` on an option list: the elements indexed
by a permutation of the index range (`ValidShuffle`). -/
def randomShuffle (xs : List String) (pos : List Nat) : List String :=
  pos.filterMap (fun i => xs.get? i)

/-- The position list of a faithful `random.sample(xs, k)` draw from a list
of length `n`: pairwise distinct, in range, and `k` of them. -/
def ValidSample (pos : List Nat) (n k : Nat) : Prop :=
  pos.Nodup ∧ (∀ i ∈ pos, i < n) ∧ pos.length = k

/-- The position list of a faithful `random.shuffle` of a list of length `n`:
a permutation of the index range. -/
def ValidShuffle (pos : List Nat) (n : Nat) : Prop :=
  pos.Perm (List.range n)

instance (pos : List Nat) (n : Nat) : Decidable (ValidShuffle pos n) :=
  List.decidablePerm _ _

instance (pos : List Nat) (n k : Nat) : Decidable (ValidSample pos n k) := by
  unfold ValidSample; infer_instance

/-- The randomness one request of the `quiz` handler consumes: one sample
draw per category and, for each question (keyed by its id, which is unique
in the bank), the shuffle of its option list. -/
structure QuizRandomness where
  mathPos : List Nat
  reasoningPos : List Nat
  verbalPos : List Nat
  optionPos : Nat → List Nat

/-- `questions_per_section = 10` in the `quiz` handler. -/
def questions_per_section : Nat := 10

/-- The randomness is a faithful behaviour of `random.sample` /
`random.shuffle`: each category draw samples
`min(questions_per_section, len(qlist))` distinct in-range positions and each
question's option shuffle permutes its option indices. -/
def ValidRandomness (r : QuizRandomness) : Prop :=
  ValidSample r.mathPos mathQuestions.length
      (min questions_per_section mathQuestions.length) ∧
  ValidSample r.reasoningPos reasoningQuestions.length
      (min questions_per_section reasoningQuestions.length) ∧
  ValidSample r.verbalPos verbalQuestions.length
      (min questions_per_section verbalQuestions.length) ∧
  ∀ q ∈ allBankQuestions, ValidShuffle (r.optionPos q.id) q.options.length

instance (r : QuizRandomness) : Decidable (ValidRandomness r) := by
  unfold ValidRandomness; infer_instance

/-! ## Quiz generation (the loop over `questions_by_category`) -/

/-- The per-question step of the generation loop: `q["category"] = category`
and then `random.shuffle(q["options"])`. -/
def prepareQuestion (c : String) (optPos : Nat → List Nat) (q : Question) : Question :=
  { q with category := c, options := randomShuffle q.options (optPos q.id) }

/-- One iteration of `for category, qlist in questions_by_category.items()`:
`random.sample` the list and prepare each selected question. -/
def selectCategory (qlist : List Question) (c : String) (samplePos : List Nat)
    (optPos : Nat → List Nat) : List Question :=
  (randomSample qlist samplePos).map (prepareQuestion c optPos)

/-- The `quiz_questions` list one run of the generation loop builds:
the three category selections extended in the dict's fixed insertion order
Math, Reasoning, Verbal (the code deliberately does not shuffle across
sections). -/
def generateQuiz (r : QuizRandomness) : List Question :=
  selectCategory mathQuestions "Math" r.mathPos r.optionPos ++
  selectCategory reasoningQuestions "Reasoning" r.reasoningPos r.optionPos ++
  selectCategory verbalQuestions "Verbal" r.verbalPos r.optionPos

/-! ## Scoring -/

/-- Python `set(xs)` for a list of strings. -/
def pySetOfList (xs : List String) : Finset String := xs.toFinset

/-- Python `set(s)` for a string `s`: iterating a Python string yields its
characters as length-one strings, so this is the set of those. -/
def pySetOfString (s : String) : Finset String :=
  (s.toList.map (fun c => String.mk [c])).toFinset

/-- The matching rule of the quiz POST handler: for a `multiple` question
`set(ans) == set(q["answer"])`, otherwise the truthiness of
`ans and ans[0] == q["answer"]` (the first element is read only when the
list is non-empty). -/
def checkAnswer (q : Question) (ans : List String) : Bool :=
  if q.multiple then decide (pySetOfList ans = pySetOfString q.answer)
  else
    match ans with
    | [] => false
    | a :: _ => a == q.answer

/-- The form key the handler reads a question's answers from:
`request.form.getlist(f"q{id}")`. -/
def qKey (i : Nat) : String := "q" ++ toString i

/-- Python dict assignment `d[k] = v` on an insertion-ordered association
list: replace the value at an existing key, else append. -/
def dictSet (k : String) (v : List String) :
    List (String × List String) → List (String × List String)
  | [] => [(k, v)]
  | (k₁, v₁) :: rest => if k₁ = k then (k₁, v) :: rest else (k₁, v₁) :: dictSet k v rest

/-- `category_scores[c] += 1`: `some` of the updated association list when
`c` is one of its keys, `none` models Python's `KeyError`. -/
def incKey (c : String) : List (String × Nat) → Option (List (String × Nat))
  | [] => none
  | (k, v) :: rest =>
    if k = c then some ((k, v + 1) :: rest)
    else (incKey c rest).map (fun r => (k, v) :: r)

/-- What the submission loop accumulates: `user_answers`, `total_score` and
`category_scores`. -/
structure ScoreResult where
  user_answers : List (String × List String)
  total_score : Nat
  category_scores : List (String × Nat)
deriving DecidableEq

/-- The `for q in quiz_questions` submission loop of the POST branch:
record the submitted answers under `str(q['id'])` and, when the matching
rule holds, bump the total and the per-category score. -/
def scoreLoop (form : String → List String) :
    List Question → List (String × List String) → Nat → List (String × Nat) →
      Option ScoreResult
  | [], ua, ts, cs => some ⟨ua, ts, cs⟩
  | q :: rest, ua, ts, cs =>
    let ans := form (qKey q.id)
    let ua₁ := dictSet (toString q.id) ans ua
    if checkAnswer q ans then
      match incKey q.category cs with
      | none => none
      | some cs₁ => scoreLoop form rest ua₁ (ts + 1) cs₁
    else scoreLoop form rest ua₁ ts cs

/-- `category_scores = {"Math": 0, "Reasoning": 0, "Verbal": 0}`. -/
def initCategoryScores : List (String × Nat) := [("Math", 0), ("Reasoning", 0), ("Verbal", 0)]

/-- The sum of a category-score dict's values. -/
def sumVals (cs : List (String × Nat)) : Nat := (cs.map Prod.snd).sum

/-! ## Data model and session -/

/-- The `Participant` row.  Nullable JSON columns are `Option`; the two
timestamp columns are outside the model (no claim touches them). -/
structure Participant where
  id : Nat
  google_id : String := ""
  name : String := ""
  email : String := ""
  profile_pic : String := ""
  urn : Option String := none
  crn : Option String := none
  branch : String := ""
  year : Int := 0
  approval_status : String := "pending"
  quiz_submitted : Bool := false
  score : Nat := 0
  answers : Option (List (String × List String)) := none
  questions : Option (List Question) := none
  category_scores : Option (List (String × Nat)) := none
deriving DecidableEq

/-- The server-side session, as far as the handlers read it. -/
structure SessionData where
  user_email : Option String := none
  user_name : String := ""
  user_picture : String := ""
  google_id : String := ""
deriving DecidableEq

/-- The fixed admin allow-list `admin_emails` inside `is_admin`. -/
def admin_emails : List String := ["thoughtz175@gmail.com"]

/-- `is_authenticated()`: a `user_email` key is present in the session. -/
def is_authenticated (s : SessionData) : Bool := s.user_email.isSome

/-- `is_admin()`: `session.get("user_email") in admin_emails`
(`None in admin_emails` is false). -/
def is_admin (s : SessionData) : Bool :=
  match s.user_email with
  | some e => admin_emails.contains e
  | none => false

/-- A gated page's outcome: the decorators either redirect to the home page
with a flash message or let the wrapped handler produce the body. -/
inductive GuardedResponse (α : Type) where
  | redirectIndex (msg : String)
  | body (a : α)
deriving DecidableEq

/-- Whether a guarded response is a redirect (no body content returned). -/
def GuardedResponse.isRedirect {α : Type} : GuardedResponse α → Bool
  | .redirectIndex _ => true
  | .body _ => false

/-- The `require_auth` decorator. -/
def require_auth {α : Type} (f : SessionData → GuardedResponse α) (s : SessionData) :
    GuardedResponse α :=
  if ¬ is_authenticated s then .redirectIndex "Please login to access this page."
  else f s

/-- The `require_admin` decorator. -/
def require_admin {α : Type} (f : SessionData → GuardedResponse α) (s : SessionData) :
    GuardedResponse α :=
  if ¬ is_authenticated s then .redirectIndex "Please login to access this page."
  else if ¬ is_admin s then .redirectIndex "Access denied. Admin privileges required."
  else f s

/-- Every `/admin/*` route and `/leaderboard` / `/leaderboard_data` is
declared `@require_auth` over `@require_admin` over the handler. -/
def adminRoute {α : Type} (handler : SessionData → GuardedResponse α) :
    SessionData → GuardedResponse α :=
  require_auth (require_admin handler)

/-! ## Admin approve / reject endpoints -/

/-- `Participant.query.get(pid)`: lookup by primary key. -/
def queryGet (store : List Participant) (pid : Nat) : Option Participant :=
  store.find? (fun p => p.id == pid)

/-- The JSON outcome of the two admin mutation endpoints. -/
inductive AdminActionResponse where
  | notFound
  | success
deriving DecidableEq

/-- `/admin/approve/<pid>`: 404 when the row is missing, else set
`approval_status = 'approved'` and commit. -/
def admin_approve (store : List Participant) (pid : Nat) :
    AdminActionResponse × List Participant :=
  match queryGet store pid with
  | none => (.notFound, store)
  | some _ =>
    (.success, store.map (fun p =>
      if p.id = pid then { p with approval_status := "approved" } else p))

/-- `/admin/reject/<pid>`: 404 when the row is missing, else set
`approval_status = 'pending'` and commit. -/
def admin_reject (store : List Participant) (pid : Nat) :
    AdminActionResponse × List Participant :=
  match queryGet store pid with
  | none => (.notFound, store)
  | some _ =>
    (.success, store.map (fun p =>
      if p.id = pid then { p with approval_status := "pending" } else p))

/-! ## The quiz route -/

/-- `request.form.get(key, dflt)`: the first submitted value for the key,
else the default. -/
def formGet (form : String → List String) (key dflt : String) : String :=
  match form key with
  | [] => dflt
  | v :: _ => v

/-- Where the quiz route sends the client. -/
inductive QuizResponse where
  | redirectIndex (msg : String)
  | redirectLeaderboard
  | redirectProfile (msg : String)
  | redirectPending (msg : String)
  | redirectThankYou (msg : String)
  | redirectInstructions (msg : String)
  | renderQuiz (questions : List Question)
deriving DecidableEq

/-- Whether the quiz route's response is a redirect (anything but the quiz
page render). -/
def QuizResponse.isRedirect : QuizResponse → Bool
  | .renderQuiz _ => false
  | _ => true

/-- The response with its flash message erased: what is left when only the
user-facing message may vary. -/
inductive QuizTarget where
  | index
  | leaderboard
  | profile
  | pending
  | thankYou
  | instructions
  | quizPage (questions : List Question)
deriving DecidableEq

/-- The redirect/render target of a quiz response, dropping flash text. -/
def QuizResponse.target : QuizResponse → QuizTarget
  | .redirectIndex _ => .index
  | .redirectLeaderboard => .leaderboard
  | .redirectProfile _ => .profile
  | .redirectPending _ => .pending
  | .redirectThankYou _ => .thankYou
  | .redirectInstructions _ => .instructions
  | .renderQuiz qs => .quizPage qs

/-- The flash shown to an already-submitted participant who re-enters. -/
def quizSubmittedMsg : String :=
  "You cannot continue the quiz because your session has ended or you violated full-screen rules."

/-- Lines 460-473 of the handler: the flash after a successful commit is
chosen from the client-declared `submit_reason` / `time_up` form fields; the
`manual` and unknown-reason branches produce the same score message. -/
def submitFlash (form : String → List String) (total_score nq : Nat) : String :=
  let submit_reason := (formGet form "submit_reason" "").toLower
  let time_up := (formGet form "time_up" "false").toLower == "true"
  if submit_reason == "time_up" || time_up then
    "Time is over, so your responses have been submitted."
  else if submit_reason == "beforeunload" then
    "Quiz auto-submitted due to refresh/navigation attempt."
  else if submit_reason == "violation" then
    "Quiz auto-submitted due to repeated tab switch/focus/fullscreen violations."
  else
    "Quiz completed! Your score: " ++ toString total_score ++ "/" ++ toString nq

/-- GET `/quiz` for a session `s` whose participant lookup returned `stored`:
the guard chain (`require_auth`, the admin bounce, the missing-profile,
approval and already-submitted checks) and then the render of a freshly
generated question list.  The second component is the participant row after
the request (unchanged on GET). -/
def quizGet (s : SessionData) (stored : Option Participant) (r : QuizRandomness) :
    QuizResponse × Option Participant :=
  if ¬ is_authenticated s then (.redirectIndex "Please login to access this page.", stored)
  else if is_admin s then (.redirectLeaderboard, stored)
  else
    match stored with
    | none => (.redirectProfile "Please complete your profile first.", none)
    | some p =>
      if p.approval_status ≠ "approved" then (.redirectPending "Profile pending approval.", some p)
      else if p.quiz_submitted then (.redirectThankYou quizSubmittedMsg, some p)
      else (.renderQuiz (generateQuiz r), some p)

/-- POST `/quiz`: the same guard chain; past it the handler regenerates
`quiz_questions` from the randomness this request consumes, runs the
submission loop, and on success commits the results onto the participant row
and flashes per `submit_reason`.  A `KeyError` in the loop is caught by the
handler's broad `except`, which flashes an error and redirects to the
instructions page without committing. -/
def quizPost (s : SessionData) (stored : Option Participant) (r : QuizRandomness)
    (form : String → List String) : QuizResponse × Option Participant :=
  if ¬ is_authenticated s then (.redirectIndex "Please login to access this page.", stored)
  else if is_admin s then (.redirectLeaderboard, stored)
  else
    match stored with
    | none => (.redirectProfile "Please complete your profile first.", none)
    | some p =>
      if p.approval_status ≠ "approved" then (.redirectPending "Profile pending approval.", some p)
      else if p.quiz_submitted then (.redirectThankYou quizSubmittedMsg, some p)
      else
        let quiz_questions := generateQuiz r
        match scoreLoop form quiz_questions [] 0 initCategoryScores with
        | none => (.redirectInstructions "An error occurred during the quiz. Please try again.", some p)
        | some res =>
          (.redirectThankYou (submitFlash form res.total_score quiz_questions.length),
           some { p with
             answers := some res.user_answers,
             questions := some quiz_questions,
             score := res.total_score,
             category_scores := some res.category_scores,
             quiz_submitted := true })

/-! ## Profile form -/

/-- The fields the profile POST reads from the form: `request.form.get`
yields `None` for an absent select field, hence `Option` for `branch` and
`year`; `urn` and `crn` default to the empty string before stripping. -/
structure ProfileForm where
  urn : String := ""
  crn : String := ""
  branch : Option String := none
  year : Option String := none
deriving DecidableEq

/-- Python truthiness of `request.form.get(...)` for a select field:
falsy when absent or the empty string. -/
def pyFalsy (o : Option String) : Bool :=
  match o with
  | none => true
  | some s => s = ""

/-- Where the profile POST sends the client. -/
inductive ProfileResponse where
  | redirectInstructions (msg : String)
  | renderForm (msg : String)
  | redirectLeaderboard
  | redirectPending (msg : String)
deriving DecidableEq

/-- Whether the profile POST re-rendered the form (with a flash message). -/
def ProfileResponse.isRenderForm : ProfileResponse → Bool
  | .renderForm _ => true
  | _ => false

/-- POST `/profile` for an authenticated session: redirect away when a row
for the session's email already exists; otherwise validate (branch, year, at
least one of URN/CRN after `.strip()`) re-rendering the form on failure, and
only past validation insert the new row.  The second component is the row
the request created, `none` when nothing was inserted.  `int(year)` is
modelled by `String.toInt?`; a non-numeric year raises and is caught by the
broad `except`, which re-renders the form without inserting. -/
def profilePost (s : SessionData) (existing : Option Participant) (newId : Nat)
    (form : ProfileForm) : ProfileResponse × Option Participant :=
  match existing with
  | some _ => (.redirectInstructions "Profile already exists. Redirecting to instructions.", none)
  | none =>
    let urn := form.urn.trim
    let crn := form.crn.trim
    if pyFalsy form.branch then (.renderForm "Please select your branch.", none)
    else if pyFalsy form.year then (.renderForm "Please select your year.", none)
    else if urn = "" ∧ crn = "" then (.renderForm "Please enter either URN or CRN.", none)
    else
      match (form.year.getD "").toInt? with
      | none => (.renderForm "An error occurred. Please try again.", none)
      | some y =>
        let participant : Participant :=
          { id := newId,
            google_id := s.google_id,
            name := s.user_name,
            email := s.user_email.getD "",
            profile_pic := s.user_picture,
            urn := if urn = "" then none else some urn,
            crn := if crn = "" then none else some crn,
            branch := form.branch.getD "",
            year := y,
            approval_status := "pending" }
        if is_admin s then (.redirectLeaderboard, some participant)
        else (.redirectPending "Profile submitted. Awaiting approval.", some participant)

/-! ## The emailed report's correctness flag -/

/-- The participant's answers as the emailed report prints them: joined by
a comma-space delimiter, or the text `No answer` when the list is empty. -/
def emailAnswerText (user_ans : List String) : String :=
  if user_ans.isEmpty then "No answer" else String.intercalate ", " user_ans

/-- The `is_correct` flag `send_email_later` computes per persisted
question/answer pair: for a `multiple` question `set(user_ans) ==
set(correct_ans)`, otherwise the truthiness of
`user_ans and user_ans[0] == correct_ans`. -/
def emailIsCorrect (q : Question) (user_ans : List String) : Bool :=
  if q.multiple then decide (pySetOfList user_ans = pySetOfString q.answer)
  else
    match user_ans with
    | [] => false
    | a :: _ => a == q.answer

/-! ## Concrete witness data -/

/-- A non-admin authenticated session. -/
def wSession : SessionData :=
  { user_email := some "student@example.com", user_name := "Student", google_id := "g1" }

/-- An approved participant who has not submitted yet. -/
def wParticipant : Participant :=
  { id := 1, email := "student@example.com", approval_status := "approved" }

/-- An approved participant who has already submitted. -/
def wSubmitted : Participant :=
  { id := 2, email := "done@example.com", approval_status := "approved",
    quiz_submitted := true, score := 3 }

/-- A faithful randomness draw: every sample and shuffle in original order. -/
def wRandom : QuizRandomness :=
  ⟨List.range 10, List.range 10, List.range 10, fun _ => [0, 1, 2, 3]⟩

/-- A faithful randomness draw whose option shuffles reverse the options. -/
def wRandomRev : QuizRandomness :=
  ⟨List.range 10, List.range 10, List.range 10, fun _ => [3, 2, 1, 0]⟩

/-- A form submitting no answers at all. -/
def wForm (_ : String) : List String := []

/-- The participant row after the witness submission under `wRandom`. -/
def wFinal : Participant :=
  ((quizPost wSession (some wParticipant) wRandom wForm).2).getD wParticipant

/-- The participant row after a submission that consumed `wRandomRev`. -/
def wFinalRev : Participant :=
  ((quizPost wSession (some wParticipant) wRandomRev wForm).2).getD wParticipant

/-- A one-row store for the admin endpoints. -/
def wStore : List Participant := [wParticipant]

/-- A profile form with every field absent. -/
def wProfileForm : ProfileForm := {}

/-- A single-answer question for the empty-answer safety witness. -/
def wQuestion : Question :=
  { id := 1, question := "q1", options := ["1/15"], answer := "1/15" }

/-- A form that submits no answers and declares a manual submission. -/
def wForm1 (k : String) : List String :=
  if k = "submit_reason" then ["manual"] else []

/-- The same answers as `wForm1` but an anti-cheat violation reason. -/
def wForm2 (k : String) : List String :=
  if k = "submit_reason" then ["violation"] else []

/-! ## Supporting lemmas -/

lemma filterMap_get_range {α : Type} (l : List α) :
    (List.range l.length).filterMap (fun i => l.get? i) = l := by
  induction l with
  | nil => rfl
  | cons a t ih =>
    rw [List.length_cons, List.range_succ_eq_map, List.filterMap_cons, List.filterMap_map]
    show a :: List.filterMap ((fun i => (a :: t).get? i) ∘ Nat.succ) (List.range t.length) = _
    have h : ((fun i => (a :: t).get? i) ∘ Nat.succ) = fun i => t.get? i := by
      funext i; simp
    rw [h, ih]

lemma filterMap_get_perm {α : Type} (xs : List α) {pos : List Nat}
    (h : pos.Perm (List.range xs.length)) :
    (pos.filterMap (fun i => xs.get? i)).Perm xs := by
  have := List.Perm.filterMap (fun i => xs.get? i) h
  rwa [filterMap_get_range] at this

lemma validSample_perm_range {pos : List Nat} {n : Nat} (h : ValidSample pos n n) :
    pos.Perm (List.range n) := by
  obtain ⟨hnd, hlt, hlen⟩ := h
  have hsub : pos ⊆ List.range n := fun i hi => List.mem_range.mpr (hlt i hi)
  exact (hnd.subperm hsub).perm_of_length_le (by simp [hlen])

lemma randomSample_perm {xs : List Question} {pos : List Nat}
    (h : pos.Perm (List.range xs.length)) : (randomSample xs pos).Perm xs :=
  filterMap_get_perm xs h

lemma prepareQuestion_id (c : String) (optPos : Nat → List Nat) (q : Question) :
    (prepareQuestion c optPos q).id = q.id := rfl

lemma prepareQuestion_category (c : String) (optPos : Nat → List Nat) (q : Question) :
    (prepareQuestion c optPos q).category = c := rfl

lemma mem_selectCategory_category {qlist : List Question} {c : String}
    {sp : List Nat} {op : Nat → List Nat} {q : Question}
    (hq : q ∈ selectCategory qlist c sp op) : q.category = c := by
  obtain ⟨q₀, _, rfl⟩ := List.mem_map.mp hq
  rfl

lemma selectCategory_perm (c : String) (op : Nat → List Nat)
    {qlist : List Question} {sp : List Nat} (h : sp.Perm (List.range qlist.length)) :
    (selectCategory qlist c sp op).Perm (qlist.map (prepareQuestion c op)) :=
  (randomSample_perm h).map _

lemma selectCategory_ids_perm (c : String) (op : Nat → List Nat)
    {qlist : List Question} {sp : List Nat} (h : sp.Perm (List.range qlist.length)) :
    ((selectCategory qlist c sp op).map Question.id).Perm (qlist.map Question.id) := by
  have h2 := (selectCategory_perm c op h).map Question.id
  rwa [List.map_map, show Question.id ∘ prepareQuestion c op = Question.id from rfl] at h2

lemma filter_selectCategory_self {qlist : List Question} {c : String}
    {sp : List Nat} {op : Nat → List Nat} :
    (selectCategory qlist c sp op).filter (fun q => q.category == c) =
      selectCategory qlist c sp op :=
  List.filter_eq_self.mpr fun q hq => by
    simp [mem_selectCategory_category hq]

lemma filter_selectCategory_other {qlist : List Question} {c c' : String}
    {sp : List Nat} {op : Nat → List Nat} (hcc : c ≠ c') :
    (selectCategory qlist c sp op).filter (fun q => q.category == c') = [] :=
  List.filter_eq_nil_iff.mpr fun q hq hpq => by
    rw [mem_selectCategory_category hq] at hpq
    exact hcc (by simpa using hpq)

lemma generateQuiz_category_mem (r : QuizRandomness) :
    ∀ q ∈ generateQuiz r, q.category ∈ initCategoryScores.map Prod.fst := by
  intro q hq
  rcases List.mem_append.mp hq with hq' | hq'
  · rcases List.mem_append.mp hq' with hm | hr
    · rw [mem_selectCategory_category hm]; simp [initCategoryScores]
    · rw [mem_selectCategory_category hr]; simp [initCategoryScores]
  · rw [mem_selectCategory_category hq']; simp [initCategoryScores]

lemma incKey_mem {c : String} :
    ∀ {cs : List (String × Nat)}, c ∈ cs.map Prod.fst →
      ∃ cs', incKey c cs = some cs' ∧ cs'.map Prod.fst = cs.map Prod.fst ∧
        sumVals cs' = sumVals cs + 1 := by
  intro cs
  induction cs with
  | nil => intro h; simp at h
  | cons kv rest ih =>
    intro h
    obtain ⟨k, v⟩ := kv
    by_cases hk : k = c
    · exact ⟨(k, v + 1) :: rest, by simp [incKey, hk], rfl, by simp [sumVals, Nat.add_comm,
        Nat.add_assoc, Nat.add_left_comm]⟩
    · have hc : c ∈ rest.map Prod.fst := by
        rcases List.mem_cons.mp h with h' | h'
        · exact absurd h'.symm hk
        · exact h'
      obtain ⟨rest', hr, hkeys, hsum⟩ := ih hc
      refine ⟨(k, v) :: rest', ?_, ?_, ?_⟩
      · simp [incKey, hk, hr]
      · simp [hkeys]
      · simp [sumVals] at hsum ⊢
        omega

lemma scoreLoop_some (form : String → List String) :
    ∀ (qs : List Question) (ua : List (String × List String)) (ts : Nat)
      (cs : List (String × Nat)),
      (∀ q ∈ qs, q.category ∈ cs.map Prod.fst) →
      ∃ res, scoreLoop form qs ua ts cs = some res ∧
        res.total_score = ts + qs.countP (fun q => checkAnswer q (form (qKey q.id))) ∧
        sumVals res.category_scores =
          sumVals cs + qs.countP (fun q => checkAnswer q (form (qKey q.id))) := by
  intro qs
  induction qs with
  | nil => intro ua ts cs _; exact ⟨⟨ua, ts, cs⟩, rfl, by simp, by simp⟩
  | cons q rest ih =>
    intro ua ts cs hcat
    by_cases hchk : checkAnswer q (form (qKey q.id)) = true
    · obtain ⟨cs₁, hinc, hkeys, hsum⟩ := incKey_mem (hcat q (List.mem_cons_self q rest))
      have hrest : ∀ q' ∈ rest, q'.category ∈ cs₁.map Prod.fst := by
        intro q' hq'
        rw [hkeys]
        exact hcat q' (List.mem_cons_of_mem q hq')
      obtain ⟨res, hres, htot, hcs⟩ :=
        ih (dictSet (toString q.id) (form (qKey q.id)) ua) (ts + 1) cs₁ hrest
      refine ⟨res, ?_, ?_, ?_⟩
      · simp only [scoreLoop, hchk, if_true, hinc]
        exact hres
      · rw [htot, List.countP_cons_of_pos (fun q => checkAnswer q (form (qKey q.id))) rest hchk]
        omega
      · rw [hcs, hsum, List.countP_cons_of_pos (fun q => checkAnswer q (form (qKey q.id))) rest hchk]
        omega
    · have hrest : ∀ q' ∈ rest, q'.category ∈ cs.map Prod.fst := by
        intro q' hq'
        exact hcat q' (List.mem_cons_of_mem q hq')
      obtain ⟨res, hres, htot, hcs⟩ :=
        ih (dictSet (toString q.id) (form (qKey q.id)) ua) ts cs hrest
      refine ⟨res, ?_, ?_, ?_⟩
      · simp only [scoreLoop, hchk, if_false, Bool.false_eq_true]
        exact hres
      · rw [htot, List.countP_cons_of_neg (fun q => checkAnswer q (form (qKey q.id))) rest (by simp [hchk])]
      · rw [hcs, List.countP_cons_of_neg (fun q => checkAnswer q (form (qKey q.id))) rest (by simp [hchk])]

lemma scoreLoop_form_congr {f₁ f₂ : String → List String} :
    ∀ (qs : List Question) (ua : List (String × List String)) (ts : Nat)
      (cs : List (String × Nat)),
      (∀ q ∈ qs, f₁ (qKey q.id) = f₂ (qKey q.id)) →
      scoreLoop f₁ qs ua ts cs = scoreLoop f₂ qs ua ts cs := by
  intro qs
  induction qs with
  | nil => intro ua ts cs _; rfl
  | cons q rest ih =>
    intro ua ts cs hf
    have hq : f₁ (qKey q.id) = f₂ (qKey q.id) := hf q (List.mem_cons_self q rest)
    have hrest : ∀ q' ∈ rest, f₁ (qKey q'.id) = f₂ (qKey q'.id) :=
      fun q' hq' => hf q' (List.mem_cons_of_mem q hq')
    simp only [scoreLoop, hq]
    by_cases hchk : checkAnswer q (f₂ (qKey q.id)) = true
    · simp only [hchk, if_true]
      cases incKey q.category cs with
      | none => rfl
      | some cs₁ => exact ih _ _ _ hrest
    · simp only [hchk, if_false, Bool.false_eq_true]
      exact ih _ _ _ hrest

lemma qKey_data (i : Nat) : (qKey i).data = 'q' :: (toString i).data := by
  show ("q" ++ toString i).data = _
  rw [String.data_append]
  rfl

lemma qKey_ne_submit_reason (i : Nat) : qKey i ≠ "submit_reason" := by
  intro h
  have h2 := congrArg String.data h
  rw [qKey_data] at h2
  have h3 : ("submit_reason" : String).data =
      's' :: ['u', 'b', 'm', 'i', 't', '_', 'r', 'e', 'a', 's', 'o', 'n'] := rfl
  rw [h3] at h2
  injection h2 with h4 _
  exact absurd h4 (by decide)

lemma qKey_ne_time_up (i : Nat) : qKey i ≠ "time_up" := by
  intro h
  have h2 := congrArg String.data h
  rw [qKey_data] at h2
  have h3 : ("time_up" : String).data = 't' :: ['i', 'm', 'e', '_', 'u', 'p'] := rfl
  rw [h3] at h2
  injection h2 with h4 _
  exact absurd h4 (by decide)

/-! ## The claims -/

/-- C9: the correctness flag `send_email_later` computes for a persisted
question/answer pair (set equality when `multiple`, first-answer exact match
otherwise, false on an empty answer list) agrees with the matching rule the
quiz scoring loop uses: the two functions classify every pair the same
way. -/
theorem email_flag_agrees_with_scoring (q : Question) (ans : List String) :
    emailIsCorrect q ans = checkAnswer q ans := rfl

/-- C7: on an existing participant, the admin reject endpoint sets
`approval_status` to `"pending"` (not `"rejected"`), and the admin approve
endpoint sets it to `"approved"`; both report success. -/
theorem admin_reject_sets_pending (store : List Participant) (pid : Nat)
    (p : Participant) (hp : queryGet store pid = some p) :
    (admin_reject store pid).1 = AdminActionResponse.success ∧
    (∀ q ∈ (admin_reject store pid).2, q.id = pid → q.approval_status = "pending") ∧
    (admin_approve store pid).1 = AdminActionResponse.success ∧
    (∀ q ∈ (admin_approve store pid).2, q.id = pid → q.approval_status = "approved") := by
  refine ⟨by simp [admin_reject, hp], ?_, by simp [admin_approve, hp], ?_⟩
  · intro q hq hid
    simp only [admin_reject, hp] at hq
    obtain ⟨p₀, _, rfl⟩ := List.mem_map.mp hq
    by_cases hcase : p₀.id = pid
    · simp [hcase]
    · rw [if_neg hcase] at hid ⊢
      exact absurd hid hcase
  · intro q hq hid
    simp only [admin_approve, hp] at hq
    obtain ⟨p₀, _, rfl⟩ := List.mem_map.mp hq
    by_cases hcase : p₀.id = pid
    · simp [hcase]
    · rw [if_neg hcase] at hid ⊢
      exact absurd hid hcase

/-- Witness for C7 at the one-row store. -/
theorem admin_reject_sets_pending_witness :
    (queryGet wStore 1 = some wParticipant) ∧
    ((admin_reject wStore 1).1 = AdminActionResponse.success ∧
     (∀ q ∈ (admin_reject wStore 1).2, q.id = 1 → q.approval_status = "pending") ∧
     (admin_approve wStore 1).1 = AdminActionResponse.success ∧
     (∀ q ∈ (admin_approve wStore 1).2, q.id = 1 → q.approval_status = "approved")) :=
  ⟨rfl, admin_reject_sets_pending wStore 1 wParticipant rfl⟩

/-- C5: a session whose `user_email` is not on the fixed admin allow-list
(including an unauthenticated session) gets a redirect from every route
guarded by the `require_auth` / `require_admin` decorator pair — the wrapped
handler's body is never returned, whatever the handler is. -/
theorem admin_routes_redirect_nonadmin {α : Type}
    (handler : SessionData → GuardedResponse α) (s : SessionData)
    (h : ∀ e, s.user_email = some e → e ∉ admin_emails) :
    GuardedResponse.isRedirect (adminRoute handler s) = true := by
  cases hue : s.user_email with
  | none =>
    simp [adminRoute, require_auth, require_admin, is_authenticated, hue,
      GuardedResponse.isRedirect]
  | some e =>
    have he := h e hue
    have hadm : is_admin s = false := by
      simp only [is_admin, hue]
      simpa using he
    simp [adminRoute, require_auth, require_admin, is_authenticated, hue, hadm,
      GuardedResponse.isRedirect]

/-- Witness for C5: a logged-in non-admin hitting an admin route whose
handler would return content. -/
theorem admin_routes_redirect_nonadmin_witness :
    (∀ e, wSession.user_email = some e → e ∉ admin_emails) ∧
    GuardedResponse.isRedirect
      (adminRoute (fun _ => GuardedResponse.body (0 : Nat)) wSession) = true :=
  ⟨fun e he => by
      injection he with h
      subst h
      decide,
   admin_routes_redirect_nonadmin (fun _ => GuardedResponse.body (0 : Nat)) wSession
     (fun e he => by
        injection he with h
        subst h
        decide)⟩

/-- C4: a profile POST (with no row for the session's email yet) in which
branch is unset, or year is unset, or both URN and CRN strip to empty, is
rejected: the form is re-rendered with a message and no participant row is
created. -/
theorem profile_validation_rejects (s : SessionData) (newId : Nat) (form : ProfileForm)
    (h : form.branch = none ∨ form.year = none ∨
      (form.urn.trim = "" ∧ form.crn.trim = "")) :
    (profilePost s none newId form).2 = none ∧
    ProfileResponse.isRenderForm (profilePost s none newId form).1 = true := by
  rcases h with hb | hy | huc
  · have hb' : pyFalsy form.branch = true := by simp [pyFalsy, hb]
    constructor <;> simp [profilePost, hb', ProfileResponse.isRenderForm]
  · have hy' : pyFalsy form.year = true := by simp [pyFalsy, hy]
    by_cases hb : pyFalsy form.branch = true
    · constructor <;> simp [profilePost, hb, ProfileResponse.isRenderForm]
    · rw [Bool.not_eq_true] at hb
      constructor <;> simp [profilePost, hb, hy', ProfileResponse.isRenderForm]
  · by_cases hb : pyFalsy form.branch = true
    · constructor <;> simp [profilePost, hb, ProfileResponse.isRenderForm]
    · rw [Bool.not_eq_true] at hb
      by_cases hy : pyFalsy form.year = true
      · constructor <;> simp [profilePost, hb, hy, ProfileResponse.isRenderForm]
      · rw [Bool.not_eq_true] at hy
        constructor <;>
          simp [profilePost, hb, hy, huc.1, huc.2, ProfileResponse.isRenderForm]

/-- Witness for C4: the all-defaults form (branch unset) is rejected. -/
theorem profile_validation_rejects_witness :
    (wProfileForm.branch = none ∨ wProfileForm.year = none ∨
      (wProfileForm.urn.trim = "" ∧ wProfileForm.crn.trim = "")) ∧
    ((profilePost wSession none 1 wProfileForm).2 = none ∧
     ProfileResponse.isRenderForm (profilePost wSession none 1 wProfileForm).1 = true) :=
  ⟨Or.inl rfl, profile_validation_rejects wSession 1 wProfileForm (Or.inl rfl)⟩

/-- C3: a POST to the quiz route for a participant whose `quiz_submitted`
flag is already true is redirected away (never re-scored) and leaves the
participant row — score, answers, questions included — unchanged. -/
theorem quiz_submitted_once (s : SessionData) (p : Participant) (r : QuizRandomness)
    (form : String → List String) (hsub : p.quiz_submitted = true) :
    (quizPost s (some p) r form).2 = some p ∧
    QuizResponse.isRedirect (quizPost s (some p) r form).1 = true := by
  by_cases h1 : is_authenticated s = true
  · by_cases h2 : is_admin s = true
    · constructor <;> simp [quizPost, h1, h2, QuizResponse.isRedirect]
    · by_cases h3 : p.approval_status = "approved"
      · constructor <;> simp [quizPost, h1, h2, h3, hsub, QuizResponse.isRedirect]
      · constructor <;> simp [quizPost, h1, h2, h3, QuizResponse.isRedirect]
  · constructor <;> simp [quizPost, h1, QuizResponse.isRedirect]

/-- Witness for C3: a second POST by the already-submitted participant. -/
theorem quiz_submitted_once_witness :
    (wSubmitted.quiz_submitted = true) ∧
    ((quizPost wSession (some wSubmitted) wRandom wForm).2 = some wSubmitted ∧
     QuizResponse.isRedirect (quizPost wSession (some wSubmitted) wRandom wForm).1 = true) :=
  ⟨rfl, quiz_submitted_once wSession wSubmitted wRandom wForm rfl⟩

/-- C2: when the quiz submission of an eligible participant commits, the
persisted score is the count, over the persisted question list, of questions
whose matching rule holds against the submitted answers, and the persisted
per-category scores sum to exactly that score. -/
theorem score_matches_persisted_questions (s : SessionData) (p : Participant)
    (r : QuizRandomness) (form : String → List String) (p' : Participant)
    (hauth : is_authenticated s = true) (hadm : is_admin s = false)
    (happ : p.approval_status = "approved") (hsub : p.quiz_submitted = false)
    (hp' : (quizPost s (some p) r form).2 = some p') :
    p'.questions = some (generateQuiz r) ∧
    p'.score = (generateQuiz r).countP (fun q => checkAnswer q (form (qKey q.id))) ∧
    ∃ cs, p'.category_scores = some cs ∧ sumVals cs = p'.score := by
  obtain ⟨res, hres, htot, hsum⟩ :=
    scoreLoop_some form (generateQuiz r) [] 0 initCategoryScores (generateQuiz_category_mem r)
  simp only [quizPost, hauth, hadm, happ, hsub, Bool.false_eq_true, if_false,
    not_true, ite_false, ne_eq, not_false_iff, hres] at hp'
  rw [Option.some.injEq] at hp'
  refine ⟨?_, ?_, res.category_scores, ?_, ?_⟩
  · rw [← hp']
  · rw [← hp']
    show res.total_score = _
    simpa using htot
  · rw [← hp']
  · rw [← hp']
    show sumVals res.category_scores = res.total_score
    have hz : sumVals initCategoryScores = 0 := rfl
    rw [hsum, htot, hz]

/-- Witness for C2: the eligible witness participant submits an empty form
under the identity randomness draw. -/
theorem score_matches_persisted_questions_witness :
    (is_authenticated wSession = true ∧ is_admin wSession = false ∧
     wParticipant.approval_status = "approved" ∧ wParticipant.quiz_submitted = false ∧
     (quizPost wSession (some wParticipant) wRandom wForm).2 = some wFinal) ∧
    (wFinal.questions = some (generateQuiz wRandom) ∧
     wFinal.score = (generateQuiz wRandom).countP (fun q => checkAnswer q (wForm (qKey q.id))) ∧
     ∃ cs, wFinal.category_scores = some cs ∧ sumVals cs = wFinal.score) :=
  ⟨⟨rfl, rfl, rfl, rfl, rfl⟩,
   score_matches_persisted_questions wSession wParticipant wRandom wForm wFinal
     rfl rfl rfl rfl rfl⟩

/-- C6: under a faithful randomness draw, the generated quiz holds exactly
10 questions of each category, with no duplicate question id inside a
category, and the list is precisely the Math questions followed by the
Reasoning questions followed by the Verbal questions — no shuffling across
categories. -/
theorem quiz_selection_per_category (r : QuizRandomness) (h : ValidRandomness r) :
    ((generateQuiz r).filter (fun q => q.category == "Math")).length = 10 ∧
    ((generateQuiz r).filter (fun q => q.category == "Reasoning")).length = 10 ∧
    ((generateQuiz r).filter (fun q => q.category == "Verbal")).length = 10 ∧
    (((generateQuiz r).filter (fun q => q.category == "Math")).map Question.id).Nodup ∧
    (((generateQuiz r).filter (fun q => q.category == "Reasoning")).map Question.id).Nodup ∧
    (((generateQuiz r).filter (fun q => q.category == "Verbal")).map Question.id).Nodup ∧
    generateQuiz r =
      (generateQuiz r).filter (fun q => q.category == "Math") ++
      (generateQuiz r).filter (fun q => q.category == "Reasoning") ++
      (generateQuiz r).filter (fun q => q.category == "Verbal") := by
  obtain ⟨hm, hr, hv, _⟩ := h
  have hmp : r.mathPos.Perm (List.range mathQuestions.length) :=
    validSample_perm_range hm
  have hrp : r.reasoningPos.Perm (List.range reasoningQuestions.length) :=
    validSample_perm_range hr
  have hvp : r.verbalPos.Perm (List.range verbalQuestions.length) :=
    validSample_perm_range hv
  have fM : (generateQuiz r).filter (fun q => q.category == "Math") =
      selectCategory mathQuestions "Math" r.mathPos r.optionPos := by
    rw [generateQuiz, List.filter_append, List.filter_append,
      filter_selectCategory_self, filter_selectCategory_other (by decide),
      filter_selectCategory_other (by decide), List.append_nil, List.append_nil]
  have fR : (generateQuiz r).filter (fun q => q.category == "Reasoning") =
      selectCategory reasoningQuestions "Reasoning" r.reasoningPos r.optionPos := by
    rw [generateQuiz, List.filter_append, List.filter_append,
      filter_selectCategory_other (by decide), filter_selectCategory_self,
      filter_selectCategory_other (by decide), List.nil_append, List.append_nil]
  have fV : (generateQuiz r).filter (fun q => q.category == "Verbal") =
      selectCategory verbalQuestions "Verbal" r.verbalPos r.optionPos := by
    rw [generateQuiz, List.filter_append, List.filter_append,
      filter_selectCategory_other (by decide), filter_selectCategory_other (by decide),
      filter_selectCategory_self, List.nil_append, List.nil_append]
  refine ⟨?_, ?_, ?_, ?_, ?_, ?_, ?_⟩
  · rw [fM, (selectCategory_perm "Math" r.optionPos hmp).length_eq, List.length_map]
    rfl
  · rw [fR, (selectCategory_perm "Reasoning" r.optionPos hrp).length_eq, List.length_map]
    rfl
  · rw [fV, (selectCategory_perm "Verbal" r.optionPos hvp).length_eq, List.length_map]
    rfl
  · rw [fM]
    exact ((selectCategory_ids_perm "Math" r.optionPos hmp).nodup_iff).mpr (by decide)
  · rw [fR]
    exact ((selectCategory_ids_perm "Reasoning" r.optionPos hrp).nodup_iff).mpr (by decide)
  · rw [fV]
    exact ((selectCategory_ids_perm "Verbal" r.optionPos hvp).nodup_iff).mpr (by decide)
  · rw [fM, fR, fV]
    rfl

/-- Witness for C6: the identity draw is faithful randomness and yields the
claimed shape. -/
theorem quiz_selection_per_category_witness :
    ValidRandomness wRandom ∧
    (((generateQuiz wRandom).filter (fun q => q.category == "Math")).length = 10 ∧
     ((generateQuiz wRandom).filter (fun q => q.category == "Reasoning")).length = 10 ∧
     ((generateQuiz wRandom).filter (fun q => q.category == "Verbal")).length = 10 ∧
     (((generateQuiz wRandom).filter (fun q => q.category == "Math")).map Question.id).Nodup ∧
     (((generateQuiz wRandom).filter (fun q => q.category == "Reasoning")).map Question.id).Nodup ∧
     (((generateQuiz wRandom).filter (fun q => q.category == "Verbal")).map Question.id).Nodup ∧
     generateQuiz wRandom =
       (generateQuiz wRandom).filter (fun q => q.category == "Math") ++
       (generateQuiz wRandom).filter (fun q => q.category == "Reasoning") ++
       (generateQuiz wRandom).filter (fun q => q.category == "Verbal")) :=
  ⟨by decide, quiz_selection_per_category wRandom (by decide)⟩

/-- C8: two quiz POSTs that agree on every form field except the
client-declared `submit_reason` / `time_up` fields commit identical
participant state (score, category scores, answers, questions) and reach
the same target page; the declared reason can only change the flash
message. -/
theorem submit_reason_noninterference (s : SessionData) (stored : Option Participant)
    (r : QuizRandomness) (f₁ f₂ : String → List String)
    (h : ∀ k, k ≠ "submit_reason" → k ≠ "time_up" → f₁ k = f₂ k) :
    (quizPost s stored r f₁).2 = (quizPost s stored r f₂).2 ∧
    QuizResponse.target (quizPost s stored r f₁).1 =
      QuizResponse.target (quizPost s stored r f₂).1 := by
  have hq : ∀ q : Question, f₁ (qKey q.id) = f₂ (qKey q.id) := fun q =>
    h (qKey q.id) (qKey_ne_submit_reason q.id) (qKey_ne_time_up q.id)
  have hs : scoreLoop f₁ (generateQuiz r) [] 0 initCategoryScores =
      scoreLoop f₂ (generateQuiz r) [] 0 initCategoryScores :=
    scoreLoop_form_congr (generateQuiz r) [] 0 initCategoryScores (fun q _ => hq q)
  by_cases h1 : is_authenticated s = true
  · by_cases h2 : is_admin s = true
    · simp [quizPost, h1, h2]
    · cases stored with
      | none => simp [quizPost, h1, h2]
      | some p =>
        by_cases h3 : p.approval_status = "approved"
        · by_cases h4 : p.quiz_submitted = true
          · simp [quizPost, h1, h2, h3, h4]
          · have hred : ∀ f : String → List String,
                quizPost s (some p) r f =
                  match scoreLoop f (generateQuiz r) [] 0 initCategoryScores with
                  | none =>
                    (.redirectInstructions "An error occurred during the quiz. Please try again.",
                     some p)
                  | some res =>
                    (.redirectThankYou (submitFlash f res.total_score (generateQuiz r).length),
                     some { p with
                       answers := some res.user_answers,
                       questions := some (generateQuiz r),
                       score := res.total_score,
                       category_scores := some res.category_scores,
                       quiz_submitted := true }) := by
              intro f
              simp [quizPost, h1, h2, h3, h4]
            rw [hred f₁, hred f₂, hs]
            cases scoreLoop f₂ (generateQuiz r) [] 0 initCategoryScores with
            | none => exact ⟨rfl, rfl⟩
            | some res => exact ⟨rfl, rfl⟩
        · simp [quizPost, h1, h2, h3]
  · simp [quizPost, h1]

/-- Witness for C8: an empty answer sheet submitted once with reason
`manual` and once with reason `violation`. -/
theorem submit_reason_noninterference_witness :
    (∀ k, k ≠ "submit_reason" → k ≠ "time_up" → wForm1 k = wForm2 k) ∧
    ((quizPost wSession (some wParticipant) wRandom wForm1).2 =
      (quizPost wSession (some wParticipant) wRandom wForm2).2 ∧
     QuizResponse.target (quizPost wSession (some wParticipant) wRandom wForm1).1 =
      QuizResponse.target (quizPost wSession (some wParticipant) wRandom wForm2).1) :=
  ⟨fun k hk _ => by simp [wForm1, wForm2, hk],
   submit_reason_noninterference wSession (some wParticipant) wRandom wForm1 wForm2
     (fun k hk _ => by simp [wForm1, wForm2, hk])⟩

/-- C10: scoring is total on arbitrary form input — a single-answer question
with an empty submitted selection list is simply counted incorrect (the
first element is matched only in the non-empty case), and the submission
loop over a generated quiz always completes with a result, whatever the
form. -/
theorem scoring_total_on_empty_answers (q : Question) (r : QuizRandomness)
    (form : String → List String) (hq : q.multiple = false) :
    checkAnswer q [] = false ∧
    (scoreLoop form (generateQuiz r) [] 0 initCategoryScores).isSome = true := by
  constructor
  · simp [checkAnswer, hq]
  · obtain ⟨res, hres, _, _⟩ :=
      scoreLoop_some form (generateQuiz r) [] 0 initCategoryScores
        (generateQuiz_category_mem r)
    simp [hres]

/-- Witness for C10 at a concrete single-answer question and the empty
form. -/
theorem scoring_total_on_empty_answers_witness :
    (wQuestion.multiple = false) ∧
    (checkAnswer wQuestion [] = false ∧
     (scoreLoop wForm (generateQuiz wRandom) [] 0 initCategoryScores).isSome = true) :=
  ⟨rfl, scoring_total_on_empty_answers wQuestion wRandom wForm rfl⟩

/-- C1 (code bug): the quiz POST does not persist the list served by the
GET — it regenerates the questions from fresh randomness and persists that.
With the identity draw serving the GET and a reversing draw consumed by the
POST (both faithful `random.sample` / `random.shuffle` behaviours), the
persisted question list differs from the served one in its per-participant
shuffled option order. -/
theorem persisted_questions_regenerated_bug :
    ValidRandomness wRandom ∧ ValidRandomness wRandomRev ∧
    (quizGet wSession (some wParticipant) wRandom).1 =
      QuizResponse.renderQuiz (generateQuiz wRandom) ∧
    (quizPost wSession (some wParticipant) wRandomRev wForm).2 = some wFinalRev ∧
    wFinalRev.questions = some (generateQuiz wRandomRev) ∧
    generateQuiz wRandomRev ≠ generateQuiz wRandom :=
  ⟨by decide, by decide, rfl, rfl, rfl, by decide⟩

end AptuQuest
